import Mathlib

/-!
Verification of the activity-management web app (enrollment, attendance,
CEP hour accrual, notifications, event reports) against its natural-language
specification.  The definitions below are a shallow embedding of the
TypeScript components: each `def` mirrors one function of the source
(`StudentCC.handleEnroll`, `StudentCEP.handleEnroll`, `FacultyCC.submitAttendance`,
the event-report page, ...), with the Supabase tables modelled as lists of rows
and each asynchronous store call modelled by explicit state passing.
-/

/-! ## Data model (tables, per `database_setup.sql` and the supabase type defs) -/

inductive AttStatus
  | present
  | absent
deriving DecidableEq, Repr

inductive NotifType
  | eventCreated
  | eventReminder
  | enrollmentConfirmed
  | attendanceMarked
  | eventCompleted
deriving DecidableEq, Repr

/-- A row of the `attendance` table. -/
structure AttRow where
  userId : String
  eventId : String
  status : AttStatus
  markedBy : String
deriving DecidableEq, Repr

/-- A row of the `enrollments` table (key fields only). -/
structure EnrollRow where
  eventId : String
  userId : String
deriving DecidableEq, Repr

/-- A row of the `notifications` table. -/
structure NotifRow where
  userId : String
  eventId : String
  title : String
  message : String
  ntype : NotifType
  isRead : Bool
deriving DecidableEq, Repr

/-- An event as the student pages cache it (`events` table fields the
enrollment code reads). -/
structure Activity where
  eventId : String
  title : String
  date : String
  time : String
  venue : String
  department : String
deriving DecidableEq, Repr

/-- A row of the `users` table (fields read by the faculty pages). -/
structure UserRow where
  userId : String
  name : String
  uid : String
  year : String
  role : String
  department : String
deriving DecidableEq, Repr

/-- The slice of the store touched by the student enrollment flow. -/
structure StoreState where
  enrollments : List EnrollRow
  attendance : List AttRow
  notifications : List NotifRow
deriving DecidableEq, Repr

/-- `attendance` lookup for one `(event_id, user_id)` pair, as the
`maybeSingle()` query in `StudentCC.handleEnroll` resolves it. -/
def attendanceStatus (att : List AttRow) (eventId userId : String) : Option AttStatus :=
  (att.find? fun r => r.eventId == eventId && r.userId == userId).map (fun r => r.status)

/-- Outcome of `handleEnroll` as seen by the user: success, the lock alert,
or the generic catch-all error alert. -/
inductive EnrollOutcome
  | ok
  | lockedAlert (msg : String)
  | errorAlert (msg : String)
deriving DecidableEq, Repr

/-- The `enrollment_confirmed` notification built in `StudentCC.handleEnroll`. -/
def enrollmentConfirmedNotif (a : Activity) (userId : String) : NotifRow :=
  ⟨userId, a.eventId, "Enrollment Confirmed",
    "You have successfully enrolled for \"" ++ a.title ++ "\". Do not forget to attend on "
      ++ a.date ++ " at " ++ a.time ++ ".",
    NotifType.enrollmentConfirmed, false⟩

/-- `StudentCC.handleEnroll` (also `Dashboard`/part_002, which is identical):
checks attendance before an unenroll, deletes or inserts the enrollment, and
on a fresh enrollment dispatches the confirmation notification.
`notifError = some m` models `NotificationContext.sendNotification` failing
with message `m`; the context function logs AND re-throws, so the thrown
error lands in `handleEnroll`'s catch block. -/
def handleEnrollCC (s : StoreState) (activities : List Activity) (eventId userId : String)
    (isCurrentlyEnrolled : Bool) (notifError : Option String) : StoreState × EnrollOutcome :=
  if (attendanceStatus s.attendance eventId userId).isSome && isCurrentlyEnrolled then
    (s, EnrollOutcome.lockedAlert "Cannot unenroll as attendance has already been marked.")
  else if isCurrentlyEnrolled then
    (⟨s.enrollments.filter fun r => !(r.eventId == eventId && r.userId == userId),
      s.attendance, s.notifications⟩, EnrollOutcome.ok)
  else
    let s1 : StoreState :=
      ⟨s.enrollments ++ [⟨eventId, userId⟩], s.attendance, s.notifications⟩
    match activities.find? fun a => a.eventId == eventId with
    | none => (s1, EnrollOutcome.ok)
    | some a =>
      match notifError with
      | none =>
        (⟨s1.enrollments, s1.attendance,
          s1.notifications ++ [enrollmentConfirmedNotif a userId]⟩, EnrollOutcome.ok)
      | some m => (s1, EnrollOutcome.errorAlert ("Error updating enrollment: " ++ m))

/-- `StudentCEP.handleEnroll`: deletes or inserts the enrollment with no
attendance check at all and no notification. -/
def handleEnrollCEP (s : StoreState) (eventId userId : String) (isCurrentlyEnrolled : Bool) :
    StoreState × EnrollOutcome :=
  if isCurrentlyEnrolled then
    (⟨s.enrollments.filter fun r => !(r.eventId == eventId && r.userId == userId),
      s.attendance, s.notifications⟩, EnrollOutcome.ok)
  else
    (⟨s.enrollments ++ [⟨eventId, userId⟩], s.attendance, s.notifications⟩, EnrollOutcome.ok)

/-- A store state with `Enrollment(E1, U1)` and `Attendance(U1, E1) = Present`. -/
def lockedPairState : StoreState :=
  ⟨[⟨"E1", "U1"⟩], [⟨"U1", "E1", AttStatus.present, "F1"⟩], []⟩

/-- The concrete activity used in the C6 scenarios. -/
def actE1 : Activity := ⟨"E1", "Tech Talk", "2025-01-10", "10:00", "Hall A", "CS"⟩

/-! ## CEP accrual (StudentCEP.fetchSubmissions / fetchRequirement, FacultyCEP.handleApproval) -/

/-- A row of the `cep_submissions` table (fields the accrual reads). -/
structure CEPSubmission where
  submissionId : String
  userId : String
  hours : Option Int
  approved : Option Bool
deriving DecidableEq, Repr

/-- The completed-hours aggregate of `StudentCEP.fetchSubmissions`:
`data.reduce((sum, sub) => sub.approved === true ? sum + (sub.hours || 0) : sum, 0)`.
(`FacultyCEP.fetchSubmissions` computes the same value; its extra
`sub.approved === "true"` disjunct can never hold for the boolean-typed
`approved` column.) -/
def completedHours (subs : List CEPSubmission) : Int :=
  subs.foldl (fun sum sub => if sub.approved == some true then sum + sub.hours.getD 0 else sum) 0

/-- `FacultyCEP.handleApproval`: sets `approved` of the matching submission. -/
def handleApproval (subs : List CEPSubmission) (submissionId : String) (approve : Bool) :
    List CEPSubmission :=
  subs.map fun s =>
    if s.submissionId == submissionId then ⟨s.submissionId, s.userId, s.hours, some approve⟩ else s

/-! ## CEP requirement lookup and progress (StudentCEP) -/

/-- A row of the `cep_requirements` table.  `FacultyCEP.updateRequirement`
writes one row per `(year, department)` (it upserts `department := user.department`). -/
structure CEPReqRow where
  year : String
  department : String
  hoursRequired : Int
  deadline : Option String
deriving DecidableEq, Repr

/-- `StudentCEP.fetchRequirement`: queries `cep_requirements` filtered by
`year` ONLY (no department filter) and keeps `data[0]`. -/
def fetchRequirement (reqs : List CEPReqRow) (userYear : String) : Option CEPReqRow :=
  (reqs.filter fun r => r.year == userYear).head?

/-- Modelled from the spec's words (for comparison with `fetchRequirement`):
"`required` resolved by looking up CEPRequirement for the user's
`(year, department)`". -/
def specRequirementLookup (reqs : List CEPReqRow) (userYear userDept : String) :
    Option CEPReqRow :=
  reqs.find? fun r => r.year == userYear && r.department == userDept

/-- What the StudentCEP page renders: the distinct "No Requirements Set"
state when no requirement row was found, else the progress value. -/
inductive CEPView
  | noRequirements
  | progress (pct : ℚ)
deriving DecidableEq, Repr

/-- `StudentCEP.progressPercentage`:
`Math.min((completedHours / requirement.hours_required) * 100, 100)`. -/
def progressPercentage (completed : ℚ) (r : CEPReqRow) : ℚ :=
  min (completed / (r.hoursRequired : ℚ) * 100) 100

/-- The StudentCEP render split: `if (!requirement) return <No Requirements Set>`,
else the progress bar driven by `progressPercentage`. -/
def studentCEPView (reqs : List CEPReqRow) (userYear : String) (completed : ℚ) : CEPView :=
  match fetchRequirement reqs userYear with
  | none => CEPView.noRequirements
  | some r => CEPView.progress (progressPercentage completed r)

/-- Two requirement rows for year "1" in different departments. -/
def twoDeptReqs : List CEPReqRow := [⟨"1", "CS", 20, none⟩, ⟨"1", "EE", 30, none⟩]

/-! ## Report aggregator (the event-report page, src/unnamed/part_005) -/

/-- A student row resolved with attendance for reporting. -/
structure StudentAtt where
  userId : String
  name : String
  uid : String
  year : String
  status : AttStatus
deriving DecidableEq, Repr

/-- A row of the `event_reports` table. -/
structure ReportRow where
  eventId : String
  facultyId : String
  totalEnrolled : Nat
  totalAttended : Nat
  totalAbsent : Nat
  attendancePercentage : ℚ
  eventSummary : String
  feedback : String
deriving DecidableEq, Repr

/-- User ids enrolled for an event (`enrollments` filtered by `event_id`). -/
def enrolledUserIds (enr : List EnrollRow) (eventId : String) : List String :=
  (enr.filter fun e => e.eventId == eventId).map (fun e => e.userId)

/-- The student/attendance resolution of `fetchEventData`: the users with
role `Student` among the enrolled ids, each given the status of their
attendance row for the event, defaulting to `Absent` when no row exists
(`attendance?.status || 'Absent'`). -/
def resolveStudents (enr : List EnrollRow) (users : List UserRow) (att : List AttRow)
    (eventId : String) : List StudentAtt :=
  (users.filter fun u =>
      u.role == "Student" && (enrolledUserIds enr eventId).contains u.userId).map fun u =>
    ⟨u.userId, u.name, u.uid, u.year,
      (((att.filter fun a => a.eventId == eventId).find? fun a => a.userId == u.userId).map
          (fun a => a.status)).getD AttStatus.absent⟩

/-- JavaScript `Math.round`: round half away from zero toward positive
infinity, i.e. `⌊x + 1/2⌋`. -/
def jsRound (q : ℚ) : Int := Int.floor (q + 1 / 2)

/-- `Math.round(x * 100) / 100`: round to two decimals. -/
def round2 (q : ℚ) : ℚ := (jsRound (q * 100) : ℚ) / 100

/-- The computation of `generateReport`: totals over the resolved student
list and `attendance_percentage = Math.round(pct * 100) / 100` where
`pct = totalEnrolled > 0 ? (totalAttended / totalEnrolled) * 100 : 0`. -/
def generateReportData (students : List StudentAtt) (eventId facultyId summary fb : String) :
    ReportRow :=
  let totalEnrolled := students.length
  let totalAttended := (students.filter fun s => s.status == AttStatus.present).length
  let totalAbsent := (students.filter fun s => s.status == AttStatus.absent).length
  let pct : ℚ :=
    if totalEnrolled > 0 then ((totalAttended : ℚ) / (totalEnrolled : ℚ)) * 100 else 0
  ⟨eventId, facultyId, totalEnrolled, totalAttended, totalAbsent, round2 pct, summary, fb⟩

/-- The store tables the report page reads. -/
structure ReportEnv where
  enrollments : List EnrollRow
  users : List UserRow
  attendance : List AttRow
deriving DecidableEq, Repr

/-- The report page's component state: the `event_reports` table plus the
`selectedEvent`, `report` and `students` React state. -/
structure ReportPage where
  reports : List ReportRow
  selected : Option String
  uiReport : Option ReportRow
  students : List StudentAtt
deriving DecidableEq, Repr

/-- `fetchEventData`: when the event has no enrollments it sets the student
list and selection and RETURNS EARLY, leaving the cached `report` state
untouched; otherwise it resolves the students and re-reads the existing
report for the event from `event_reports`. -/
def fetchEventData (env : ReportEnv) (p : ReportPage) (eventId : String) : ReportPage :=
  if (enrolledUserIds env.enrollments eventId).isEmpty then
    ⟨p.reports, some eventId, p.uiReport, []⟩
  else
    ⟨p.reports, some eventId, p.reports.find? fun r => r.eventId == eventId,
      resolveStudents env.enrollments env.users env.attendance eventId⟩

/-- The "Generate Report" click: the form (and its button) is only rendered
when no report is cached (`!report`); `generateReport` itself returns unless
an event is selected, then inserts one `event_reports` row and caches it. -/
def generateReportClick (p : ReportPage) (facultyId summary fb : String) : ReportPage :=
  if p.uiReport = none then
    match p.selected with
    | none => p
    | some e =>
      let row := generateReportData p.students e facultyId summary fb
      ⟨p.reports ++ [row], p.selected, some row, p.students⟩
  else p

/-- One user action on the report page. -/
inductive PageAction
  | select (eventId : String)
  | generate (summary fb : String)
deriving DecidableEq, Repr

def pageStep (env : ReportEnv) (facultyId : String) (p : ReportPage) : PageAction → ReportPage
  | PageAction.select e => fetchEventData env p e
  | PageAction.generate s f => generateReportClick p facultyId s f

def runPage (env : ReportEnv) (facultyId : String) (p : ReportPage) (acts : List PageAction) :
    ReportPage :=
  acts.foldl (pageStep env facultyId) p

def initialPage : ReportPage := ⟨[], none, none, []⟩

/-- Environment for the C3 scenario: event "A" has no enrollments, event "B"
has one enrolled student. -/
def envC3 : ReportEnv :=
  ⟨[⟨"B", "U1"⟩], [⟨"U1", "Asha", "u1", "1", "Student", "CS"⟩], []⟩

/-! ## Attendance recorder (FacultyCC) -/

/-- The React attendance map: a JS object `userId → isPresent`, modelled as
an insertion-ordered association list (the order `JSON.stringify` sees). -/
abbrev AttMap := List (String × Bool)

/-- `FacultyCC.markAttendance`:
`setPendingAttendance(prev => ({...prev, [studentId]: isPresent}))` —
overwrite in place when the key exists, else append. -/
def attMapSet (m : AttMap) (studentId : String) (isPresent : Bool) : AttMap :=
  if m.any fun p => p.1 == studentId then
    m.map fun p => if p.1 == studentId then (studentId, isPresent) else p
  else m ++ [(studentId, isPresent)]

/-- `FacultyCC.hasUnsavedChanges`:
`JSON.stringify(pendingAttendance) !== JSON.stringify(attendance)` — a deep
key/value comparison of the two insertion-ordered maps. -/
def hasUnsavedChanges (pending clean : AttMap) : Bool := pending != clean

/-- The attendance-marking session: the clean baseline (`attendance` state),
the staged map (`pendingAttendance`), the `attendance` table and the
`notifications` table. -/
structure RecorderState where
  clean : AttMap
  pending : AttMap
  db : List AttRow
  notifs : List NotifRow
deriving DecidableEq, Repr

/-- The upsert batch of `submitAttendance`: one record per entry of the
ENTIRE pending map (`Object.entries(pendingAttendance).map(...)`). -/
def attendanceRecords (pending : AttMap) (eventId facultyId : String) : List AttRow :=
  pending.map fun p =>
    ⟨p.1, eventId, if p.2 then AttStatus.present else AttStatus.absent, facultyId⟩

/-- One record of a `(user_id, event_id)`-keyed upsert into `attendance`:
replace the row holding the conflict key, else insert. -/
def upsertAttRow : List AttRow → AttRow → List AttRow
  | [], r => [r]
  | x :: xs, r =>
    if x.userId == r.userId && x.eventId == r.eventId then r :: xs
    else x :: upsertAttRow xs r

/-- The batch upsert `supabase.from('attendance').upsert(records, onConflict
user_id,event_id)`. -/
def upsertAttendance (db : List AttRow) (recs : List AttRow) : List AttRow :=
  recs.foldl upsertAttRow db

/-- `sendAttendanceNotifications`: one `attendance_marked` notification per
entry of the pending map, carrying the student's resulting status. -/
def attendanceMarkedNotifs (pending : AttMap) (eventId activityTitle : String) :
    List NotifRow :=
  pending.map fun p =>
    ⟨p.1, eventId, "Attendance Marked",
      "Your attendance for \"" ++ activityTitle ++ "\" has been marked as "
        ++ (if p.2 then "Present" else "Absent") ++ ".",
      NotifType.attendanceMarked, false⟩

/-- `FacultyCC.submitAttendance`: upserts the whole pending map; on success
promotes pending → clean (`setAttendance(pendingAttendance)`) and then
dispatches the notifications (whose own failure is caught by
`sendAttendanceNotifications` and only logged); an upsert failure throws
before any state change, so everything is left untouched. -/
def submitAttendance (st : RecorderState) (eventId facultyId activityTitle : String)
    (upsertOk notifOk : Bool) : RecorderState :=
  if upsertOk then
    let newDb := upsertAttendance st.db (attendanceRecords st.pending eventId facultyId)
    if notifOk then
      ⟨st.pending, st.pending, newDb,
        st.notifs ++ attendanceMarkedNotifs st.pending eventId activityTitle⟩
    else
      ⟨st.pending, st.pending, newDb, st.notifs⟩
  else st

/-- The Submit Attendance button: `disabled={isSubmitting || !hasUnsavedChanges()}`. -/
def clickSubmit (st : RecorderState) (eventId facultyId activityTitle : String)
    (upsertOk notifOk : Bool) : RecorderState :=
  if hasUnsavedChanges st.pending st.clean then
    submitAttendance st eventId facultyId activityTitle upsertOk notifOk
  else st

/-! ## Feedback (StudentCC.submitFeedback) -/

/-- Outcome of `submitFeedback` as surfaced through `feedbackError`. -/
inductive FeedbackOutcome
  | validationError (msg : String)
  | lockedError (msg : String)
  | ok
deriving DecidableEq, Repr

/-- A row of the `feedback` table (fields the submit writes). -/
structure FeedbackRow where
  eventId : String
  userId : String
  rating : Nat
  comments : String
deriving DecidableEq, Repr

/-- The `(event_id, user_id)`-keyed upsert into `feedback`
(`onConflict: 'event_id,user_id'`): replace the row holding the conflict
key, else insert. -/
def upsertFeedback : List FeedbackRow → FeedbackRow → List FeedbackRow
  | [], r => [r]
  | x :: xs, r =>
    if x.eventId == r.eventId && x.userId == r.userId then r :: xs
    else x :: upsertFeedback xs r

/-- `!feedback.comments.trim()` — the comments string trims to empty, i.e.
it has no non-whitespace character. -/
def blankComments (comments : String) : Bool :=
  comments.toList.all fun c => c.isWhitespace

/-- `StudentCC.submitFeedback`: validation first (`!feedback.rating ||
!feedback.comments.trim()`), then the absent-attendance lock on the cached
status, then the upsert. -/
def submitFeedback (db : List FeedbackRow) (eventId userId : String) (rating : Nat)
    (comments : String) (cachedStatus : Option AttStatus) :
    List FeedbackRow × FeedbackOutcome :=
  if rating == 0 || blankComments comments then
    (db, FeedbackOutcome.validationError "Rating and comments are required")
  else if cachedStatus == some AttStatus.absent then
    (db, FeedbackOutcome.lockedError "Feedback cannot be submitted for absent attendance")
  else
    (upsertFeedback db ⟨eventId, userId, rating, comments⟩, FeedbackOutcome.ok)

/-- Number of feedback rows for one `(event_id, user_id)` key. -/
def feedbackCount (db : List FeedbackRow) (eventId userId : String) : Nat :=
  (db.filter fun x => x.eventId == eventId && x.userId == userId).length

/-! ## Event-creation notification fan-out (FacultyCC) -/

/-- The `event_created` notification built in `sendNotificationsToStudents`. -/
def eventCreatedNotif (ev : Activity) (userId : String) : NotifRow :=
  ⟨userId, ev.eventId, "New Co-curricular Activity",
    "A new activity \"" ++ ev.title ++ "\" has been created. Date: " ++ ev.date ++ " at "
      ++ ev.time ++ ". Venue: " ++ ev.venue,
    NotifType.eventCreated, false⟩

/-- `FacultyCC.sendNotificationsToStudents`: queries `users` for
`role = 'Student'` and `department = event.department`, then builds one
notification per returned student and bulk-inserts them. -/
def sendNotificationsToStudents (users : List UserRow) (ev : Activity) : List NotifRow :=
  (users.filter fun u => u.role == "Student" && u.department == ev.department).map fun u =>
    eventCreatedNotif ev u.userId

/-- `FacultyCC.createActivity`: inserts the event, then fans the
notifications out to the department's students. -/
def createActivity (events : List Activity) (users : List UserRow) (notifs : List NotifRow)
    (ev : Activity) : List Activity × List NotifRow :=
  (events ++ [ev], notifs ++ sendNotificationsToStudents users ev)

/-! ## Theorems -/

/-- C1: with an Attendance row present for (U1, E1), `StudentCC.handleEnroll`
does refuse the unenroll with the Locked alert and keeps the Enrollment row,
but `StudentCEP.handleEnroll` — the other component offering unenroll —
deletes the Enrollment row and reports success, so the lock invariant does
NOT hold in every component that offers unenroll. -/
theorem C1_studentCEP_unenroll_ignores_attendance :
    handleEnrollCC lockedPairState [] "E1" "U1" true none
      = (lockedPairState,
         EnrollOutcome.lockedAlert "Cannot unenroll as attendance has already been marked.")
    ∧ handleEnrollCEP lockedPairState "E1" "U1" true
      = (⟨[], [⟨"U1", "E1", AttStatus.present, "F1"⟩], []⟩, EnrollOutcome.ok) :=
  ⟨rfl, rfl⟩

/-- C6 counterexample: enrolling succeeds (the row is committed) and the
subsequent notification dispatch fails; the failure is re-thrown by
`sendNotification` and surfaces to the user as the enroll operation's own
error alert — contradicting the claim that a dispatch failure is never
surfaced as a failure of the domain operation. -/
theorem C6_notification_failure_surfaced :
    (handleEnrollCC ⟨[], [], []⟩ [actE1] "E1" "U1" false (some "boom")).1.enrollments
        = [⟨"E1", "U1"⟩]
    ∧ (handleEnrollCC ⟨[], [], []⟩ [actE1] "E1" "U1" false (some "boom")).2
        = EnrollOutcome.errorAlert "Error updating enrollment: boom" :=
  ⟨rfl, rfl⟩

/-- C6 amended: when the enrollment insert commits and notification dispatch
then fails, the committed Enrollment row is never rolled back, but the
failure IS surfaced to the caller through the enroll operation's catch block
as an "Error updating enrollment" alert. -/
theorem C6_amended_commit_kept_error_surfaced (s : StoreState) (acts : List Activity)
    (eventId userId m : String) (a : Activity)
    (h : acts.find? (fun x => x.eventId == eventId) = some a) :
    handleEnrollCC s acts eventId userId false (some m)
      = (⟨s.enrollments ++ [⟨eventId, userId⟩], s.attendance, s.notifications⟩,
         EnrollOutcome.errorAlert ("Error updating enrollment: " ++ m)) := by
  simp [handleEnrollCC, h]

/-- Witness for the amended C6 at a concrete input. -/
theorem C6_amended_commit_kept_error_surfaced_witness :
    handleEnrollCC ⟨[], [], []⟩ [actE1] "E1" "U1" false (some "boom")
      = (⟨[⟨"E1", "U1"⟩], [], []⟩,
         EnrollOutcome.errorAlert "Error updating enrollment: boom") :=
  C6_amended_commit_kept_error_surfaced ⟨[], [], []⟩ [actE1] "E1" "U1" "boom" actE1 rfl

theorem completedHours_foldl_acc (subs : List CEPSubmission) (a : Int) :
    subs.foldl (fun sum sub => if sub.approved == some true then sum + sub.hours.getD 0 else sum) a
      = a + ((subs.filter fun s => s.approved == some true).map fun s => s.hours.getD 0).sum := by
  induction subs generalizing a with
  | nil => simp
  | cons x xs ih =>
    cases hx : (x.approved == some true) with
    | true =>
      rw [List.foldl_cons, if_pos hx, ih, List.filter_cons, if_pos hx, List.map_cons,
        List.sum_cons, add_assoc]
    | false =>
      rw [List.foldl_cons, if_neg (by simp [hx]), ih, List.filter_cons,
        if_neg (by simp [hx])]

/-- C2: the computed completed hours are exactly the sum of `hours` over the
`approved = true` submissions (pending `null` and rejected `false` rows
contribute zero), and after any `handleApproval` review toggle the aggregate
is recomputed by the same rule on the updated rows. -/
theorem C2_completed_hours_accrual (subs : List CEPSubmission) (sid : String) (d : Bool) :
    completedHours subs
        = ((subs.filter fun s => s.approved == some true).map fun s => s.hours.getD 0).sum
    ∧ completedHours (handleApproval subs sid d)
        = (((handleApproval subs sid d).filter fun s => s.approved == some true).map
            fun s => s.hours.getD 0).sum := by
  constructor
  · have h := completedHours_foldl_acc subs 0
    rw [zero_add] at h
    exact h
  · have h := completedHours_foldl_acc (handleApproval subs sid d) 0
    rw [zero_add] at h
    exact h

/-- C5 counterexample: for a year-1 EE student, the code resolves the CS
row (hours 20) because `fetchRequirement` filters by year only and takes the
first row, while the claimed `(year, department)` lookup yields the EE row
(hours 30) — the claim's resolution rule does not match the code. -/
theorem C5_requirement_lookup_ignores_department :
    fetchRequirement twoDeptReqs "1" = some ⟨"1", "CS", 20, none⟩
    ∧ specRequirementLookup twoDeptReqs "1" "EE" = some ⟨"1", "EE", 30, none⟩
    ∧ fetchRequirement twoDeptReqs "1" ≠ specRequirementLookup twoDeptReqs "1" "EE" := by
  refine ⟨rfl, rfl, ?_⟩
  decide

/-- C5 amended: `required` is resolved by looking up the requirement rows
matching the user's YEAR ONLY, taking the first returned row (the
department is ignored); the progress value is
`min(completed/required * 100, 100)` for that row, and the absence of any
row for the year yields the distinct "No Requirements Set" state rather
than a progress value computed with `required = 0`. -/
theorem C5_amended_year_only_lookup (reqs : List CEPReqRow) (userYear : String) (completed : ℚ) :
    fetchRequirement reqs userYear = (reqs.filter fun r => r.year == userYear).head?
    ∧ (fetchRequirement reqs userYear = none →
        studentCEPView reqs userYear completed = CEPView.noRequirements)
    ∧ ∀ r, fetchRequirement reqs userYear = some r →
        studentCEPView reqs userYear completed
          = CEPView.progress (min (completed / (r.hoursRequired : ℚ) * 100) 100) := by
  refine ⟨rfl, ?_, ?_⟩
  · intro h
    simp [studentCEPView, h]
  · intro r h
    simp [studentCEPView, h, progressPercentage]

/-- Witness for the amended C5: a single year-1 row of 20 required hours and
13 completed hours yields the 65% progress view. -/
theorem C5_amended_year_only_lookup_witness :
    studentCEPView [⟨"1", "CS", 20, none⟩] "1" 13
      = CEPView.progress (min ((13 : ℚ) / (20 : ℚ) * 100) 100) :=
  (C5_amended_year_only_lookup [⟨"1", "CS", 20, none⟩] "1" 13).2.2 ⟨"1", "CS", 20, none⟩ rfl

/-- C3: a single faculty session can persist TWO `event_reports` rows for
event "A": generate a report for the zero-enrollment event "A", view event
"B" (which resets the cached report to the one for "B", here none), then
re-select "A" — `fetchEventData` returns early without re-reading the
existing report, so the generate form is offered again and the second call's
summary is persisted as a second row.  The claim that at most one report row
ever exists per event, with the second call's text never persisted, fails. -/
theorem C3_second_report_row_persisted :
    ((runPage envC3 "F1" initialPage
        [PageAction.select "A", PageAction.generate "s1" "f1", PageAction.select "B",
         PageAction.select "A", PageAction.generate "s2" "f2"]).reports.filter
        fun r => r.eventId == "A").map (fun r => r.eventSummary) = ["s1", "s2"] := rfl

theorem length_filter_present_add_absent (l : List StudentAtt) :
    (l.filter fun s => s.status == AttStatus.present).length
      + (l.filter fun s => s.status == AttStatus.absent).length = l.length := by
  induction l with
  | nil => rfl
  | cons x xs ih =>
    cases hx : x.status <;> simp [List.filter_cons, hx] <;> omega

theorem round2_bounds (q : ℚ) (h0 : 0 ≤ q) (h1 : q ≤ 100) :
    0 ≤ round2 q ∧ round2 q ≤ 100 := by
  unfold round2 jsRound
  constructor
  · apply div_nonneg _ (by norm_num)
    have h : (0 : ℤ) ≤ Int.floor (q * 100 + 1 / 2) := by
      apply Int.le_floor.mpr
      push_cast
      nlinarith
    exact_mod_cast h
  · rw [div_le_iff₀ (by norm_num : (0 : ℚ) < 100)]
    have hlt : Int.floor (q * 100 + 1 / 2) < 10001 := by
      rw [Int.floor_lt]
      push_cast
      nlinarith
    have hle : Int.floor (q * 100 + 1 / 2) ≤ 10000 := by omega
    have hc : ((Int.floor (q * 100 + 1 / 2) : ℚ)) ≤ 10000 := by exact_mod_cast hle
    linarith

/-- C4: for the resolved enrolled-student set `S` of an event, the generated
report has `totalEnrolled = |S|`, `totalAttended` = number of Present
students, `totalAbsent` = number of Absent students, every enrolled student
with no attendance row is resolved as Absent, and
`attendancePercentage = round(attended/enrolled * 100, 2)` with percentage
`0` when no student is enrolled. -/
theorem C4_report_totals (enr : List EnrollRow) (users : List UserRow) (att : List AttRow)
    (eventId facultyId summary fb : String) :
    (generateReportData (resolveStudents enr users att eventId) eventId facultyId
        summary fb).totalEnrolled = (resolveStudents enr users att eventId).length
    ∧ (generateReportData (resolveStudents enr users att eventId) eventId facultyId
        summary fb).totalAttended
        = ((resolveStudents enr users att eventId).filter
            fun s => s.status == AttStatus.present).length
    ∧ (generateReportData (resolveStudents enr users att eventId) eventId facultyId
        summary fb).totalAbsent
        = ((resolveStudents enr users att eventId).filter
            fun s => s.status == AttStatus.absent).length
    ∧ (∀ s, s ∈ resolveStudents enr users att eventId →
        (∀ a ∈ att, ¬(a.eventId = eventId ∧ a.userId = s.userId)) →
        s.status = AttStatus.absent)
    ∧ (generateReportData (resolveStudents enr users att eventId) eventId facultyId
        summary fb).attendancePercentage
        = (if (resolveStudents enr users att eventId).length = 0 then 0
           else round2 ((((resolveStudents enr users att eventId).filter
              fun s => s.status == AttStatus.present).length : ℚ)
                / ((resolveStudents enr users att eventId).length : ℚ) * 100)) := by
  refine ⟨rfl, rfl, rfl, ?_, ?_⟩
  · intro s hs hnone
    rcases List.mem_map.mp hs with ⟨u, hu, rfl⟩
    have hfind :
        ((att.filter fun a => a.eventId == eventId).find? fun a => a.userId == u.userId)
          = none := by
      apply List.find?_eq_none.mpr
      intro x hx
      rcases List.mem_filter.mp hx with ⟨hxmem, hxev⟩
      intro hxu
      exact hnone x hxmem ⟨by simpa using hxev, by simpa using hxu⟩
    simp [hfind]
  · by_cases h : (resolveStudents enr users att eventId).length = 0
    · have hnotpos : ¬ 0 < (resolveStudents enr users att eventId).length := by omega
      simp only [generateReportData, hnotpos, if_false, if_pos h]
      unfold round2 jsRound
      norm_num
    · have hpos : 0 < (resolveStudents enr users att eventId).length :=
        Nat.pos_of_ne_zero h
      simp only [generateReportData, hpos, if_true, if_neg h]

/-- Witness for C4: a single enrolled student with no attendance row is
resolved as Absent in the generated report data. -/
theorem C4_report_totals_witness :
    StudentAtt.status ⟨"U1", "Asha", "u1", "1", AttStatus.absent⟩ = AttStatus.absent :=
  (C4_report_totals [⟨"E1", "U1"⟩] [⟨"U1", "Asha", "u1", "1", "Student", "CS"⟩] []
      "E1" "F1" "s" "f").2.2.2.1
    ⟨"U1", "Asha", "u1", "1", AttStatus.absent⟩ (by decide) (by decide)

/-- C10 (implicit invariant): every report produced by the generation
computation partitions the enrolled students into the two statuses, so
`total_enrolled = total_attended + total_absent`, and the rounded
percentage always lies between 0 and 100. -/
theorem C10_report_partition_and_bounds (students : List StudentAtt)
    (eventId facultyId summary fb : String) :
    (generateReportData students eventId facultyId summary fb).totalEnrolled
        = (generateReportData students eventId facultyId summary fb).totalAttended
          + (generateReportData students eventId facultyId summary fb).totalAbsent
    ∧ 0 ≤ (generateReportData students eventId facultyId summary fb).attendancePercentage
    ∧ (generateReportData students eventId facultyId summary fb).attendancePercentage
        ≤ 100 := by
  have hpq :
      0 ≤ (if 0 < students.length
            then (((students.filter fun s => s.status == AttStatus.present).length : ℚ)
              / (students.length : ℚ)) * 100 else 0)
      ∧ (if 0 < students.length
            then (((students.filter fun s => s.status == AttStatus.present).length : ℚ)
              / (students.length : ℚ)) * 100 else 0) ≤ 100 := by
    by_cases h : 0 < students.length
    · rw [if_pos h]
      have hn : (0 : ℚ) < (students.length : ℚ) := by exact_mod_cast h
      have ha : ((students.filter fun s => s.status == AttStatus.present).length : ℚ)
          ≤ (students.length : ℚ) := by
        exact_mod_cast List.length_filter_le _ students
      have hr : ((students.filter fun s => s.status == AttStatus.present).length : ℚ)
          / (students.length : ℚ) ≤ 1 := (div_le_one hn).mpr ha
      constructor
      · positivity
      · nlinarith
    · rw [if_neg h]
      norm_num
  refine ⟨(length_filter_present_add_absent students).symm, ?_, ?_⟩
  · exact (round2_bounds _ hpq.1 hpq.2).1
  · exact (round2_bounds _ hpq.1 hpq.2).2

theorem upsertAttRow_find_self (db : List AttRow) (r : AttRow) :
    (upsertAttRow db r).find? (fun x => x.eventId == r.eventId && x.userId == r.userId)
      = some r := by
  induction db with
  | nil => simp [upsertAttRow, List.find?]
  | cons x xs ih =>
    cases h : (x.userId == r.userId && x.eventId == r.eventId) with
    | true => simp [upsertAttRow, h, List.find?]
    | false =>
      have hx : (x.eventId == r.eventId && x.userId == r.userId) = false := by
        cases h1 : (x.userId == r.userId) <;> cases h2 : (x.eventId == r.eventId) <;>
          simp_all
      simp [upsertAttRow, h, List.find?, hx, ih]

/-- `upsertAttRow_find_self` with the conflict key spelled out. -/
theorem upsertAttRow_find_self_key (db : List AttRow) (e u f : String) (s : AttStatus) :
    (upsertAttRow db ⟨u, e, s, f⟩).find? (fun x => x.eventId == e && x.userId == u)
      = some ⟨u, e, s, f⟩ :=
  upsertAttRow_find_self db ⟨u, e, s, f⟩

theorem upsertAttRow_find_other (db : List AttRow) (r : AttRow) (e u : String)
    (hne : (r.eventId == e && r.userId == u) = false) :
    (upsertAttRow db r).find? (fun x => x.eventId == e && x.userId == u)
      = db.find? (fun x => x.eventId == e && x.userId == u) := by
  induction db with
  | nil => simp [upsertAttRow, List.find?, hne]
  | cons x xs ih =>
    cases h : (x.userId == r.userId && x.eventId == r.eventId) with
    | true =>
      have hxu : x.userId = r.userId := by
        have := (Bool.and_eq_true _ _).mp h
        simpa using this.1
      have hxe : x.eventId = r.eventId := by
        have := (Bool.and_eq_true _ _).mp h
        simpa using this.2
      have hpx : (x.eventId == e && x.userId == u) = false := by
        rw [hxe, hxu]; exact hne
      simp [upsertAttRow, h, List.find?, hpx, hne]
    | false =>
      simp only [upsertAttRow, h, if_false, Bool.false_eq_true]
      cases hp : (x.eventId == e && x.userId == u) with
      | true => simp [List.find?, hp]
      | false => simp [List.find?, hp, ih]

theorem upsertAttendance_find_other (e u : String) :
    ∀ (recs db : List AttRow),
      (∀ r ∈ recs, (r.eventId == e && r.userId == u) = false) →
      (upsertAttendance db recs).find? (fun x => x.eventId == e && x.userId == u)
        = db.find? (fun x => x.eventId == e && x.userId == u) := by
  intro recs
  induction recs with
  | nil => intro db _; rfl
  | cons r rs ih =>
    intro db h
    have step : upsertAttendance db (r :: rs) = upsertAttendance (upsertAttRow db r) rs := rfl
    rw [step, ih (upsertAttRow db r) fun x hx => h x (List.mem_cons_of_mem r hx),
      upsertAttRow_find_other db r e u (h r (List.mem_cons_self r rs))]

theorem upsertAttendance_lookup (eventId facultyId : String) :
    ∀ (pending : AttMap) (db : List AttRow), (pending.map Prod.fst).Nodup →
      ∀ u b, (u, b) ∈ pending →
        attendanceStatus (upsertAttendance db (attendanceRecords pending eventId facultyId))
            eventId u
          = some (if b then AttStatus.present else AttStatus.absent) := by
  intro pending
  induction pending with
  | nil =>
    intro db _ u b h
    simp at h
  | cons p ps ih =>
    intro db hnodup u b hmem
    rw [List.map_cons] at hnodup
    have hsplit := List.nodup_cons.mp hnodup
    rcases List.mem_cons.mp hmem with heq | htail
    · subst heq
      have hnotin : u ∉ ps.map Prod.fst := hsplit.1
      have hother : ∀ r ∈ attendanceRecords ps eventId facultyId,
          (r.eventId == eventId && r.userId == u) = false := by
        intro r hr
        rcases List.mem_map.mp hr with ⟨q, hq, rfl⟩
        have hne : q.1 ≠ u := by
          intro hcontra
          exact hnotin (hcontra ▸ List.mem_map_of_mem Prod.fst hq)
        simp [hne]
      show attendanceStatus
          (upsertAttendance
            (upsertAttRow db ⟨u, eventId, if b then AttStatus.present else AttStatus.absent,
              facultyId⟩)
            (attendanceRecords ps eventId facultyId)) eventId u
        = some (if b then AttStatus.present else AttStatus.absent)
      unfold attendanceStatus
      rw [upsertAttendance_find_other eventId u (attendanceRecords ps eventId facultyId) _
        hother,
        upsertAttRow_find_self_key db eventId u facultyId
          (if b then AttStatus.present else AttStatus.absent)]
      rfl
    · exact ih (upsertAttRow db
        ⟨p.1, eventId, if p.2 then AttStatus.present else AttStatus.absent, facultyId⟩)
        hsplit.2 u b htail

/-- C7: the commit button is a no-op while the pending map equals the clean
baseline; the upsert batch carries one `(user_id, event_id)`-keyed record
per entry of the ENTIRE pending map; on success the clean baseline becomes
the pending map (which itself is unchanged), every pending entry's resulting
status is what the attendance table then resolves for that student, and one
`attendance_marked` notification per entry is appended; on failure the whole
recorder state — pending map and clean baseline included — is unchanged. -/
theorem C7_attendance_commit (st : RecorderState) (eventId facultyId activityTitle : String)
    (notifOk : Bool) (hnodup : (st.pending.map Prod.fst).Nodup) :
    (hasUnsavedChanges st.pending st.clean = false →
      clickSubmit st eventId facultyId activityTitle true notifOk = st)
    ∧ clickSubmit st eventId facultyId activityTitle false notifOk = st
    ∧ (attendanceRecords st.pending eventId facultyId).map (fun r => (r.userId, r.eventId))
        = st.pending.map (fun p => (p.1, eventId))
    ∧ (hasUnsavedChanges st.pending st.clean = true →
        (clickSubmit st eventId facultyId activityTitle true notifOk).clean = st.pending
        ∧ (clickSubmit st eventId facultyId activityTitle true notifOk).pending = st.pending
        ∧ (∀ u b, (u, b) ∈ st.pending →
            attendanceStatus (clickSubmit st eventId facultyId activityTitle true notifOk).db
                eventId u
              = some (if b then AttStatus.present else AttStatus.absent))
        ∧ (notifOk = true →
            (clickSubmit st eventId facultyId activityTitle true notifOk).notifs
              = st.notifs ++ attendanceMarkedNotifs st.pending eventId activityTitle)) := by
  refine ⟨?_, ?_, ?_, ?_⟩
  · intro h
    simp [clickSubmit, h]
  · simp [clickSubmit, submitAttendance]
  · simp [attendanceRecords, List.map_map]
  · intro h
    refine ⟨?_, ?_, ?_, ?_⟩
    · cases notifOk <;> simp [clickSubmit, h, submitAttendance]
    · cases notifOk <;> simp [clickSubmit, h, submitAttendance]
    · intro u b hmem
      have hdb : (clickSubmit st eventId facultyId activityTitle true notifOk).db
          = upsertAttendance st.db (attendanceRecords st.pending eventId facultyId) := by
        cases notifOk <;> simp [clickSubmit, h, submitAttendance]
      rw [hdb]
      exact upsertAttendance_lookup eventId facultyId st.pending st.db hnodup u b hmem
    · intro hn
      subst hn
      simp [clickSubmit, h, submitAttendance]

/-- Witness for C7: committing a staged change flips student U1's stored
attendance row from Absent to Present. -/
theorem C7_attendance_commit_witness :
    attendanceStatus (clickSubmit
        ⟨[("U1", false), ("U2", false)], [("U1", true), ("U2", false)],
          [⟨"U1", "E1", AttStatus.absent, "F0"⟩], []⟩ "E1" "F1" "Tech Talk" true true).db
        "E1" "U1" = some AttStatus.present :=
  ((C7_attendance_commit
      ⟨[("U1", false), ("U2", false)], [("U1", true), ("U2", false)],
        [⟨"U1", "E1", AttStatus.absent, "F0"⟩], []⟩
      "E1" "F1" "Tech Talk" true (by decide)).2.2.2 (by decide)).2.2.1
    "U1" true (by decide)

theorem feedbackCount_upsert (db : List FeedbackRow) (e u : String) (rating : Nat)
    (comments : String) :
    feedbackCount (upsertFeedback db ⟨e, u, rating, comments⟩) e u
      = max 1 (feedbackCount db e u) := by
  induction db with
  | nil => simp [upsertFeedback, feedbackCount]
  | cons x xs ih =>
    cases hx : (x.eventId == e && x.userId == u) with
    | true =>
      simp only [upsertFeedback, hx, if_true]
      simp [feedbackCount, List.filter_cons, hx]
    | false =>
      simp only [upsertFeedback, hx, if_false, Bool.false_eq_true]
      simp [feedbackCount, List.filter_cons, hx] at ih ⊢
      omega

/-- C8: a feedback submission with valid inputs fails with the Locked error
and writes nothing when the attendance status is Absent; a submission only
succeeds when the status is not Absent; and the upsert keeps at most one
feedback row per `(eventId, userId)` key. -/
theorem C8_feedback_lock_and_single_row (db : List FeedbackRow) (eventId userId : String)
    (rating : Nat) (comments : String) (cachedStatus : Option AttStatus) :
    (rating ≠ 0 → blankComments comments = false → cachedStatus = some AttStatus.absent →
      submitFeedback db eventId userId rating comments cachedStatus
        = (db, FeedbackOutcome.lockedError "Feedback cannot be submitted for absent attendance"))
    ∧ ((submitFeedback db eventId userId rating comments cachedStatus).2 = FeedbackOutcome.ok →
        cachedStatus ≠ some AttStatus.absent)
    ∧ (feedbackCount db eventId userId ≤ 1 →
        feedbackCount (submitFeedback db eventId userId rating comments cachedStatus).1
            eventId userId ≤ 1) := by
  refine ⟨?_, ?_, ?_⟩
  · intro h1 h2 h3
    simp [submitFeedback, h1, h2, h3]
  · intro hok hcontra
    subst hcontra
    by_cases hv : (rating == 0 || blankComments comments) = true
    · simp [submitFeedback, hv] at hok
    · simp [submitFeedback, hv] at hok
  · intro hc
    by_cases hv : (rating == 0 || blankComments comments) = true
    · simpa [submitFeedback, hv] using hc
    · by_cases ha : (cachedStatus == some AttStatus.absent) = true
      · simpa [submitFeedback, hv, ha] using hc
      · have : feedbackCount
            (submitFeedback db eventId userId rating comments cachedStatus).1 eventId userId
            = max 1 (feedbackCount db eventId userId) := by
          simp only [submitFeedback, hv, ha, if_false, Bool.false_eq_true]
          exact feedbackCount_upsert db eventId userId rating comments
        omega

/-- Witness for C8: a valid submission against an Absent attendance status
is refused with the Locked message and writes no row. -/
theorem C8_feedback_lock_and_single_row_witness :
    submitFeedback [] "E1" "U1" 5 "great" (some AttStatus.absent)
      = ([], FeedbackOutcome.lockedError "Feedback cannot be submitted for absent attendance") :=
  (C8_feedback_lock_and_single_row [] "E1" "U1" 5 "great" (some AttStatus.absent)).1
    (by decide) (by decide) rfl

/-- C9: creating an event for department D appends exactly one
`event_created` notification per user with role Student in D — the
recipient list is exactly the filtered student list, so there are exactly N
notifications, none of them addressed outside D — and each notification
references the new event's id. -/
theorem C9_event_created_fanout (events : List Activity) (users : List UserRow)
    (notifs : List NotifRow) (ev : Activity) :
    (createActivity events users notifs ev).2
        = notifs ++ sendNotificationsToStudents users ev
    ∧ (sendNotificationsToStudents users ev).length
        = (users.filter fun u => u.role == "Student" && u.department == ev.department).length
    ∧ (sendNotificationsToStudents users ev).map (fun n => n.userId)
        = (users.filter fun u => u.role == "Student" && u.department == ev.department).map
            (fun u => u.userId)
    ∧ ∀ n ∈ sendNotificationsToStudents users ev,
        n.ntype = NotifType.eventCreated ∧ n.eventId = ev.eventId
          ∧ ∃ u ∈ users, u.role = "Student" ∧ u.department = ev.department
              ∧ n.userId = u.userId := by
  refine ⟨rfl, by simp [sendNotificationsToStudents], ?_, ?_⟩
  · simp [sendNotificationsToStudents, List.map_map]
    intro a ha hr hd
    rfl
  · intro n hn
    rcases List.mem_map.mp hn with ⟨u, hu, rfl⟩
    rcases List.mem_filter.mp hu with ⟨humem, hcond⟩
    have hc := (Bool.and_eq_true _ _).mp hcond
    exact ⟨rfl, rfl, u, humem, by simpa using hc.1, by simpa using hc.2, rfl⟩

/-- Witness for C9: with one CS student and one EE student, creating a CS
event produces exactly the one notification addressed to the CS student,
typed `event_created` and referencing the event. -/
theorem C9_event_created_fanout_witness :
    NotifRow.ntype (eventCreatedNotif actE1 "U1") = NotifType.eventCreated :=
  ((C9_event_created_fanout [] [⟨"U1", "Asha", "u1", "1", "Student", "CS"⟩,
      ⟨"U2", "Banu", "u2", "1", "Student", "EE"⟩] [] actE1).2.2.2
    (eventCreatedNotif actE1 "U1") (by decide)).1
